import Mathlib

/-!
Verification development for the `migu-rapier` 2D physics bindings.

The repository ships the TypeScript declaration surface of the Rapier
2D physics engine (`src/rapier_wasm2d.d.ts`, `src/geometry/shape.d.ts`);
the numeric engine itself lives behind the WASM boundary and is not part
of `src/`.  Following the declared signatures, the definitions below give
a shallow embedding of the data model and of the operations the claims
are about.  Wherever a function body is not present in `src/`, the
definition is modelled from the specification (its doc comment says so
explicitly) and stays faithful to the declared TypeScript signature:
option-returning declarations become `Option`-valued Lean functions,
stateful operations pass the world state explicitly, and real-number
quantities are represented with `ℚ` (exact) except where a Euclidean
norm is genuinely needed, in which case `ℝ` is used.
-/

/-- A 2D vector with rational coordinates, mirroring `RawVector` from
`src/rapier_wasm2d.d.ts` (fields `x`, `y`). -/
structure Vec2 where
  x : ℚ
  y : ℚ
deriving DecidableEq

/-- The zero vector. -/
def Vec2.zero : Vec2 := ⟨0, 0⟩

/-- Vector addition. -/
def Vec2.add (a b : Vec2) : Vec2 := ⟨a.x + b.x, a.y + b.y⟩

/-- Vector subtraction. -/
def Vec2.sub (a b : Vec2) : Vec2 := ⟨a.x - b.x, a.y - b.y⟩

/-- Scalar multiplication. -/
def Vec2.smul (k : ℚ) (a : Vec2) : Vec2 := ⟨k * a.x, k * a.y⟩

/-- A 2D rotation, mirroring `RawRotation` from `src/rapier_wasm2d.d.ts`:
a unit complex number with real part `re` and imaginary part `im`. -/
structure Rot where
  re : ℚ
  im : ℚ
deriving DecidableEq

/-- The identity rotation, mirroring `RawRotation.identity`. -/
def Rot.identity : Rot := ⟨1, 0⟩

/-- Apply a rotation to a vector (complex multiplication). -/
def Rot.apply (r : Rot) (v : Vec2) : Vec2 :=
  ⟨r.re * v.x - r.im * v.y, r.im * v.x + r.re * v.y⟩

/-- Apply the inverse of a rotation to a vector (multiplication by the
conjugate; for a unit rotation this is the inverse). -/
def Rot.applyInv (r : Rot) (v : Vec2) : Vec2 :=
  ⟨r.re * v.x + r.im * v.y, -r.im * v.x + r.re * v.y⟩

/-- The closed set of 2D shape variants, mirroring the `ShapeType` enum of
`src/geometry/shape.d.ts` and the shape classes declared there.  Vertex
and index buffers are modelled as Lean lists. -/
inductive Shape where
  | ball (radius : ℚ)
  | cuboid (hx hy : ℚ)
  | capsule (halfHeight radius : ℚ)
  | segment (a b : Vec2)
  | polyline (vertices : List Vec2) (indices : List (Nat × Nat))
  | triangle (a b c : Vec2)
  | trimesh (vertices : List Vec2) (indices : List (Nat × Nat × Nat))
  | heightfield (heights : List ℚ) (scale : Vec2)
  | convexPolygon (vertices : List Vec2)
  | roundCuboid (hx hy borderRadius : ℚ)
  | roundTriangle (a b c : Vec2) (borderRadius : ℚ)
  | roundConvexPolygon (vertices : List Vec2) (borderRadius : ℚ)
deriving DecidableEq

/-- The numeric tag of each shape variant, with the exact values of the
`ShapeType` enum in `src/geometry/shape.d.ts` (note the gap at 8). -/
def Shape.typeTag : Shape → Nat
  | .ball _ => 0
  | .cuboid _ _ => 1
  | .capsule _ _ => 2
  | .segment _ _ => 3
  | .polyline _ _ => 4
  | .triangle _ _ _ => 5
  | .trimesh _ _ => 6
  | .heightfield _ _ => 7
  | .convexPolygon _ => 9
  | .roundCuboid _ _ _ => 10
  | .roundTriangle _ _ _ _ => 11
  | .roundConvexPolygon _ _ => 12

/-- A ray, mirroring the `Ray` of `src/geometry/ray.d.ts` referenced by
`Shape.castRay`: an origin point and a direction vector. -/
structure Ray where
  orig : Vec2
  dir : Vec2
deriving DecidableEq

/-- A ray/shape intersection, mirroring `RawRayIntersection` of
`src/rapier_wasm2d.d.ts`: the time of impact and the hit normal. -/
structure RayIntersection where
  toi : ℚ
  normal : Vec2
deriving DecidableEq

/-- Modelled from the spec: the per-axis slab interval of the standard
ray/axis-aligned-box intersection (the WASM routine behind
`RawShape.castRay` is not in `src/`).  For one coordinate axis with ray
origin `o`, ray direction `d` and half-extent `h`: a parallel ray
(`d = 0`) misses outright when outside the slab and is otherwise
unconstrained (`(none, none)` stands for `(-∞, +∞)`); otherwise the
entry/exit parameters of the slab are returned in order. -/
def axisInterval (o d h : ℚ) : Option (Option ℚ × Option ℚ) :=
  if d = 0 then
    if o < -h ∨ h < o then none
    else some (none, none)
  else
    some (some (min ((-h - o) / d) ((h - o) / d)),
          some (max ((-h - o) / d) ((h - o) / d)))

/-- Greater of two lower bounds, `none` standing for `-∞`. -/
def maxLo : Option ℚ → Option ℚ → Option ℚ
  | none, b => b
  | a, none => a
  | some a, some b => some (max a b)

/-- Lesser of two upper bounds, `none` standing for `+∞`. -/
def minHi : Option ℚ → Option ℚ → Option ℚ
  | none, b => b
  | a, none => a
  | some a, some b => some (min a b)

/-- Modelled from the spec: the outward axis normal of the slab that
determined the entry time `tmin` (the `x` slab wins ties, matching the
axis-iteration order of the slab method). -/
def slabNormal (lo1 : Option ℚ) (tmin : ℚ) (d : Vec2) : Vec2 :=
  match lo1 with
  | some t1 =>
    if t1 = tmin then (if 0 < d.x then ⟨-1, 0⟩ else ⟨1, 0⟩)
    else (if 0 < d.y then ⟨0, -1⟩ else ⟨0, 1⟩)
  | none => (if 0 < d.y then ⟨0, -1⟩ else ⟨0, 1⟩)

/-- Modelled from the spec: turn the intersected slab interval
`[tmin, tmax]` into the reported impact.  The ray misses when the
interval is empty, when the box lies entirely behind the origin, or
when the impact lies beyond `maxToi`.  With `solid = true` an origin
inside the box reports a hit at time `0` with the zero normal; with
`solid = false` the exit through the boundary is reported instead. -/
def slabToi (tmin tmax maxToi : ℚ) (solid : Bool) (nrm : Vec2) :
    Option RayIntersection :=
  if tmax < tmin then none
  else if tmax < 0 then none
  else if solid then
    if tmin ≤ 0 then
      if 0 ≤ maxToi then some ⟨0, Vec2.zero⟩ else none
    else if tmin ≤ maxToi then some ⟨tmin, nrm⟩ else none
  else
    if 0 ≤ tmin then
      if tmin ≤ maxToi then some ⟨tmin, nrm⟩ else none
    else
      if tmax ≤ maxToi then some ⟨tmax, nrm⟩ else none

/-- Modelled from the spec: ray cast against an axis-aligned cuboid of
half-extents `(hx, hy)` centered at the origin, in the cuboid's local
frame (the WASM routine behind `RawShape.castRay` is not in `src/`).
Slab method: intersect the two per-axis parameter intervals and hand
the result to `slabToi`.  A zero direction is degenerate geometry and
yields no result (spec §7). -/
def cuboidLocalCastRay (hx hy : ℚ) (o d : Vec2) (maxToi : ℚ) (solid : Bool) :
    Option RayIntersection :=
  if d = Vec2.zero then none
  else
    match axisInterval o.x d.x hx, axisInterval o.y d.y hy with
    | some (lo1, hi1), some (lo2, hi2) =>
      match maxLo lo1 lo2, minHi hi1 hi2 with
      | some tmin, some tmax =>
        slabToi tmin tmax maxToi solid (slabNormal lo1 tmin d)
      | _, _ => none
    | _, _ => none

/-- Modelled from the spec: the common ray-cast routine behind both
`RawShape.castRay` and `RawShape.castRayAndGetNormal` (their WASM bodies
are not in `src/`; both declarations wrap one underlying shape-dispatch
query).  The ray is moved into the shape's local frame by the inverse
pose, then dispatched on the shape variant.  Only the cuboid routine is
modelled here; the routines of the remaining variants are part of the
missing engine and are left out, so those variants report no hit. -/
def rayCastImpl (shape : Shape) (shapePos : Vec2) (shapeRot : Rot)
    (ray : Ray) (maxToi : ℚ) (solid : Bool) : Option RayIntersection :=
  match shape with
  | .cuboid hx hy =>
    match cuboidLocalCastRay hx hy (shapeRot.applyInv (ray.orig.sub shapePos))
        (shapeRot.applyInv ray.dir) maxToi solid with
    | some i => some ⟨i.toi, shapeRot.apply i.normal⟩
    | none => none
  | _ => none

/-- Modelled from the spec: `RawShape.castRay` of `src/rapier_wasm2d.d.ts`
(WASM body not in `src/`).  Returns the time of impact as a plain number,
with `-1` as the negative miss sentinel, exactly like the raw binding
whose declared return type is `number`. -/
def RawShape.castRay (shape : Shape) (shapePos : Vec2) (shapeRot : Rot)
    (ray : Ray) (maxToi : ℚ) (solid : Bool) : ℚ :=
  match rayCastImpl shape shapePos shapeRot ray maxToi solid with
  | some i => i.toi
  | none => -1

/-- Modelled from the spec: `RawShape.castRayAndGetNormal` of
`src/rapier_wasm2d.d.ts` (WASM body not in `src/`).  Returns the full
intersection, or `none` (the binding's `undefined`) on a miss. -/
def RawShape.castRayAndGetNormal (shape : Shape) (shapePos : Vec2)
    (shapeRot : Rot) (ray : Ray) (maxToi : ℚ) (solid : Bool) :
    Option RayIntersection :=
  rayCastImpl shape shapePos shapeRot ray maxToi solid

/-- C1: casting a ray with origin `(-5,0)` and direction `(1,0)` against a
cuboid of half-extents `(1,1)` centered at the origin with the identity
rotation, with `maxToi = 10` and `solid = true`, returns a time of impact
of exactly `4`: the hit on the near face at `x = -1`. -/
theorem castRay_cuboid_toi_four :
    RawShape.castRay (Shape.cuboid 1 1) Vec2.zero Rot.identity
      ⟨⟨-5, 0⟩, ⟨1, 0⟩⟩ 10 true = 4 := by
  norm_num [RawShape.castRay, rayCastImpl, cuboidLocalCastRay, axisInterval,
    slabToi, slabNormal, Rot.identity, Rot.applyInv, Rot.apply, Vec2.sub,
    Vec2.zero, maxLo, minHi, Vec2.mk.injEq, min_def, max_def]

/-- Any impact reported by `slabToi` lies in `[0, maxToi]`. -/
theorem slabToi_toi_bounds (tmin tmax maxToi : ℚ) (solid : Bool) (nrm : Vec2)
    (i : RayIntersection) (h : slabToi tmin tmax maxToi solid nrm = some i) :
    0 ≤ i.toi ∧ i.toi ≤ maxToi := by
  unfold slabToi at h
  split at h
  · exact absurd h (by simp)
  · split at h
    · exact absurd h (by simp)
    · split at h
      · split at h
        · split at h
          · cases h
            constructor <;> (simp; try linarith)
          · exact absurd h (by simp)
        · split at h
          · cases h
            constructor <;> (simp; try linarith)
          · exact absurd h (by simp)
      · split at h
        · split at h
          · cases h
            constructor <;> (simp; try linarith)
          · exact absurd h (by simp)
        · split at h
          · cases h
            constructor <;> (simp; try linarith)
          · exact absurd h (by simp)

/-- Any impact reported by the local cuboid ray cast lies in
`[0, maxToi]`. -/
theorem cuboidLocalCastRay_toi_bounds (hx hy : ℚ) (o d : Vec2)
    (maxToi : ℚ) (solid : Bool) (i : RayIntersection)
    (h : cuboidLocalCastRay hx hy o d maxToi solid = some i) :
    0 ≤ i.toi ∧ i.toi ≤ maxToi := by
  unfold cuboidLocalCastRay at h
  split at h
  · exact absurd h (by simp)
  · split at h
    · split at h
      · exact slabToi_toi_bounds _ _ _ _ _ _ h
      · exact absurd h (by simp)
    · exact absurd h (by simp)

/-- Any impact reported by the shared ray-cast routine lies in
`[0, maxToi]`. -/
theorem rayCastImpl_toi_bounds (shape : Shape) (shapePos : Vec2)
    (shapeRot : Rot) (ray : Ray) (maxToi : ℚ) (solid : Bool)
    (i : RayIntersection)
    (h : rayCastImpl shape shapePos shapeRot ray maxToi solid = some i) :
    0 ≤ i.toi ∧ i.toi ≤ maxToi := by
  unfold rayCastImpl at h
  split at h
  · split at h
    · rename_i i' heq
      cases h
      simpa using cuboidLocalCastRay_toi_bounds _ _ _ _ _ _ _ heq
    · exact absurd h (by simp)
  · exact absurd h (by simp)

/-- C9: the two ray-cast variants are consistent.  For every shape, pose,
ray, `maxToi` and solidity flag, `castRayAndGetNormal` returns `none`
exactly when `castRay` reports a miss through its negative sentinel,
and on a hit the number returned by `castRay` equals the `toi` field of
the intersection returned by `castRayAndGetNormal` and lies in
`[0, maxToi]`. -/
theorem castRay_castRayAndGetNormal_consistent (shape : Shape)
    (shapePos : Vec2) (shapeRot : Rot) (ray : Ray) (maxToi : ℚ)
    (solid : Bool) :
    (RawShape.castRayAndGetNormal shape shapePos shapeRot ray maxToi solid
        = none
      ↔ RawShape.castRay shape shapePos shapeRot ray maxToi solid < 0)
    ∧ ∀ i,
        RawShape.castRayAndGetNormal shape shapePos shapeRot ray maxToi solid
          = some i →
        RawShape.castRay shape shapePos shapeRot ray maxToi solid = i.toi
          ∧ 0 ≤ i.toi ∧ i.toi ≤ maxToi := by
  unfold RawShape.castRay RawShape.castRayAndGetNormal
  cases himpl : rayCastImpl shape shapePos shapeRot ray maxToi solid with
  | none => simp
  | some i =>
    have hb := rayCastImpl_toi_bounds shape shapePos shapeRot ray maxToi
      solid i himpl
    constructor
    · simp only [reduceCtorEq, false_iff, not_lt]
      exact hb.1
    · intro j hj
      cases hj
      exact ⟨rfl, hb⟩

/-- C9 witness: the consistency theorem applied to the concrete cuboid
cast of half-extents `(1,1)` and the ray from `(-5,0)` along `(1,0)`,
where the hit intersection is `toi = 4` with normal `(-1,0)`. -/
theorem castRay_castRayAndGetNormal_consistent_witness :
    RawShape.castRay (Shape.cuboid 1 1) Vec2.zero Rot.identity
        ⟨⟨-5, 0⟩, ⟨1, 0⟩⟩ 10 true = (4 : ℚ)
      ∧ 0 ≤ (4 : ℚ) ∧ (4 : ℚ) ≤ 10 := by
  have h := (castRay_castRayAndGetNormal_consistent (Shape.cuboid 1 1)
    Vec2.zero Rot.identity ⟨⟨-5, 0⟩, ⟨1, 0⟩⟩ 10 true).2 ⟨4, ⟨-1, 0⟩⟩
  have heq : RawShape.castRayAndGetNormal (Shape.cuboid 1 1) Vec2.zero
      Rot.identity ⟨⟨-5, 0⟩, ⟨1, 0⟩⟩ 10 true = some ⟨4, ⟨-1, 0⟩⟩ := by
    norm_num [RawShape.castRayAndGetNormal, rayCastImpl, cuboidLocalCastRay,
      axisInterval, slabToi, slabNormal, Rot.identity, Rot.applyInv,
      Rot.apply, Vec2.sub, Vec2.zero, maxLo, minHi, Vec2.mk.injEq,
      min_def, max_def]
  exact h heq

/-- A generic joint descriptor, mirroring `RawGenericJoint` of
`src/rapier_wasm2d.d.ts`.  The payload records which factory produced
the joint and the parameters it was given, following the joint model of
spec §3 (local anchor and frame on each body, free-axis set, optional
limits). -/
inductive RawGenericJoint where
  | prismaticDesc (anchor1 anchor2 axis : Vec2) (limitsEnabled : Bool)
      (limitsMin limitsMax : ℚ)
  | fixedDesc (anchor1 : Vec2) (axes1 : Rot) (anchor2 : Vec2) (axes2 : Rot)
  | revoluteDesc (anchor1 anchor2 : Vec2)
deriving DecidableEq

/-- Modelled from the spec: `RawGenericJoint.prismatic` of
`src/rapier_wasm2d.d.ts` (WASM body not in `src/`).  Per its declared
doc comment it returns `None` exactly when the provided axis cannot be
normalized, i.e. when the axis is the zero vector (over `ℚ` the zero
vector is the only non-normalizable one). -/
def RawGenericJoint.prismatic (anchor1 anchor2 axis : Vec2)
    (limitsEnabled : Bool) (limitsMin limitsMax : ℚ) :
    Option RawGenericJoint :=
  if axis = Vec2.zero then none
  else some (.prismaticDesc anchor1 anchor2 axis limitsEnabled limitsMin
    limitsMax)

/-- Modelled from the spec: `RawGenericJoint.fixed` of
`src/rapier_wasm2d.d.ts` (WASM body not in `src/`).  Its declared return
type is not optional: it always produces a joint from two anchor+frame
pairs. -/
def RawGenericJoint.fixed (anchor1 : Vec2) (axes1 : Rot) (anchor2 : Vec2)
    (axes2 : Rot) : RawGenericJoint :=
  .fixedDesc anchor1 axes1 anchor2 axes2

/-- Modelled from the spec: `RawGenericJoint.revolute` of
`src/rapier_wasm2d.d.ts` (WASM body not in `src/`).  In 2D the declared
signature takes only the two anchors — there is no axis argument — and
nothing in the spec makes the construction fail for any anchor pair, so
the optional declared return type is always populated. -/
def RawGenericJoint.revolute (anchor1 anchor2 : Vec2) :
    Option RawGenericJoint :=
  some (.revoluteDesc anchor1 anchor2)

/-- C2 counterexample: the claim that `revolute` returns no joint for
some input with a non-normalizable axis is false on the 2D code: the
declared `revolute` takes only two anchors (no axis argument at all),
and no choice of anchors makes it return `undefined`. -/
theorem revolute_never_fails :
    ¬ ∃ a1 a2 : Vec2, RawGenericJoint.revolute a1 a2 = none := by
  rintro ⟨a1, a2, h⟩
  simp [RawGenericJoint.revolute] at h

/-- C2 (amended): `prismatic` returns no joint exactly when the supplied
axis cannot be normalized (is the zero vector) and otherwise returns a
joint; `fixed` returns a joint for every anchor+frame input; and
`revolute`, which in 2D takes only the two anchors, returns a joint for
every input. -/
theorem joint_factory_contract (anchor1 anchor2 axis : Vec2)
    (limitsEnabled : Bool) (limitsMin limitsMax : ℚ)
    (axes1 axes2 : Rot) :
    (RawGenericJoint.prismatic anchor1 anchor2 axis limitsEnabled limitsMin
        limitsMax = none
      ↔ axis = Vec2.zero)
    ∧ (∃ j, RawGenericJoint.fixed anchor1 axes1 anchor2 axes2 = j)
    ∧ RawGenericJoint.revolute anchor1 anchor2 ≠ none := by
  refine ⟨?_, ⟨_, rfl⟩, by simp [RawGenericJoint.revolute]⟩
  unfold RawGenericJoint.prismatic
  split
  next h => simpa using h
  next h => simpa using h

/-- A rigid body, mirroring the per-body attributes of spec §3 that the
`rb*` accessors of `RawRigidBodySet` in `src/rapier_wasm2d.d.ts` expose:
pose, velocities, body type (`0` dynamic, `1` fixed, `2`/`3` kinematic),
the sleeping flag and the sleep bookkeeping of spec §4.3. -/
structure Body where
  translation : Vec2
  rotAngle : ℚ
  linvel : Vec2
  angvel : ℚ
  bodyType : Nat
  sleeping : Bool
  canSleep : Bool
  sleepTimer : Nat
deriving DecidableEq

/-- Wake a body: clear the sleeping flag and reset the sleep timer
(spec §4.3: any external wake event resets the timer). -/
def Body.wake (b : Body) : Body :=
  ⟨b.translation, b.rotAngle, b.linvel, b.angvel, b.bodyType, false,
    b.canSleep, 0⟩

/-- A collider, mirroring the attributes of spec §3 exposed by
`RawColliderSet` in `src/rapier_wasm2d.d.ts`: shape, pose, optional
parent body handle, material and the sensor flag. -/
structure Collider where
  shape : Shape
  translation : Vec2
  rotation : Rot
  parent : Option Nat
  friction : ℚ
  restitution : ℚ
  isSensor : Bool
deriving DecidableEq

/-- The parameters of a joint as producible by the three factories of
`RawGenericJoint` in `src/rapier_wasm2d.d.ts` (the 2D surface has
exactly the revolute, fixed and prismatic factories). -/
inductive JointParams where
  | revoluteJ (anchor1 anchor2 : Vec2)
  | fixedJ (anchor1 : Vec2) (frame1 : Rot) (anchor2 : Vec2) (frame2 : Rot)
  | prismaticJ (anchor1 anchor2 axis : Vec2) (limitsEnabled : Bool)
      (limitsMin limitsMax : ℚ)
deriving DecidableEq

/-- A stored joint: the two attached body handles and the parameters
(spec §3, Joint row). -/
structure JointEnt where
  body1 : Nat
  body2 : Nat
  params : JointParams
deriving DecidableEq

/-- The integration parameters of the step entry point (spec §6),
mirroring `RawIntegrationParameters` of `src/rapier_wasm2d.d.ts`. -/
structure IntegrationParameters where
  dt : ℚ
  erp : ℚ
  allowedLinearError : ℚ
  predictionDistance : ℚ
  numSolverIterations : Nat
  minIslandSize : Nat
  maxCcdSubsteps : Nat
deriving DecidableEq

/-- The complete arena-stored world state: gravity, integration
parameters and the four entity sets, each an association list from
integer handles to entities (spec §9: arena storage per entity kind
with integer handles; relationships are handle fields). -/
structure World where
  gravity : Vec2
  params : IntegrationParameters
  bodies : List (Nat × Body)
  colliders : List (Nat × Collider)
  impulseJoints : List (Nat × JointEnt)
  multibodyJoints : List (Nat × JointEnt)
deriving DecidableEq

/-- The body-handle edges contributed by both joint sets: the
contact+joint connectivity graph of spec §4.3 restricted to joints
(the narrow-phase contact graph lives in the missing engine). -/
def World.jointEdges (w : World) : List (Nat × Nat) :=
  (w.impulseJoints ++ w.multibodyJoints).map (fun j => (j.2.body1, j.2.body2))

/-- One relaxation pass of reachability over an edge list: add every
vertex joined by an edge to an already-reached vertex. -/
def stepReach (edges : List (Nat × Nat)) (s : List Nat) : List Nat :=
  edges.foldl (fun acc e =>
    if e.1 ∈ acc ∧ e.2 ∉ acc then acc ++ [e.2]
    else if e.2 ∈ acc ∧ e.1 ∉ acc then acc ++ [e.1]
    else acc) s

/-- Iterated relaxation; enough passes reach the whole connected
component. -/
def iterReach (edges : List (Nat × Nat)) : Nat → List Nat → List Nat
  | 0, s => s
  | n + 1, s => iterReach edges n (stepReach edges s)

/-- The island of handle `h`: every body handle connected to `h`
through the joint graph (spec §3: island = implicit grouping by
connectivity; one pass per edge suffices to saturate). -/
def World.island (w : World) (h : Nat) : List Nat :=
  iterReach w.jointEdges (w.impulseJoints.length + w.multibodyJoints.length + 1)
    [h]

/-- Whether body handle `k` belongs to the island of handle `h`. -/
def World.inIsland (w : World) (h k : Nat) : Bool :=
  (w.island h).contains k

/-- Modelled from the spec: `RawRigidBodySet.remove` of
`src/rapier_wasm2d.d.ts` (WASM body not in `src/`).  Spec §3: removing a
body cascades — detach/destroy all its colliders and all joints
referencing it, and wake any island that becomes disconnected as a
result.  The model removes the body, keeps exactly the colliders not
parented to it and exactly the joints (impulse and multibody) not
referencing it, and wakes every surviving body of the removed body's
island (the island whose connectivity the removal breaks). -/
def RawRigidBodySet.remove (w : World) (handle : Nat) : World :=
  ⟨w.gravity, w.params,
    (w.bodies.filter (fun p => p.1 ≠ handle)).map
      (fun p => if w.inIsland handle p.1 then (p.1, p.2.wake) else p),
    w.colliders.filter (fun p => p.2.parent ≠ some handle),
    w.impulseJoints.filter (fun p => p.2.body1 ≠ handle ∧ p.2.body2 ≠ handle),
    w.multibodyJoints.filter (fun p => p.2.body1 ≠ handle ∧ p.2.body2 ≠ handle)⟩

/-- C3: removing a rigid body removes exactly the colliders attached to
it and exactly the joints (impulse and multibody) referencing it, never
leaves the removed handle in the body set, keeps every other body
handle valid — woken when its island is the one broken by the removal,
bitwise unchanged otherwise — and leaves gravity, the integration
parameters, and every unrelated collider and joint entry unchanged. -/
theorem remove_rigid_body_cascade (w : World) (h : Nat) :
    (∀ ch c, (ch, c) ∈ (RawRigidBodySet.remove w h).colliders ↔
        (ch, c) ∈ w.colliders ∧ c.parent ≠ some h)
    ∧ (∀ jh j, (jh, j) ∈ (RawRigidBodySet.remove w h).impulseJoints ↔
        (jh, j) ∈ w.impulseJoints ∧ j.body1 ≠ h ∧ j.body2 ≠ h)
    ∧ (∀ jh j, (jh, j) ∈ (RawRigidBodySet.remove w h).multibodyJoints ↔
        (jh, j) ∈ w.multibodyJoints ∧ j.body1 ≠ h ∧ j.body2 ≠ h)
    ∧ (∀ b, (h, b) ∉ (RawRigidBodySet.remove w h).bodies)
    ∧ (∀ bh b, bh ≠ h → (bh, b) ∈ w.bodies →
        (w.inIsland h bh = false → (bh, b) ∈ (RawRigidBodySet.remove w h).bodies)
        ∧ (w.inIsland h bh = true →
            (bh, b.wake) ∈ (RawRigidBodySet.remove w h).bodies))
    ∧ (RawRigidBodySet.remove w h).gravity = w.gravity
    ∧ (RawRigidBodySet.remove w h).params = w.params := by
  refine ⟨?_, ?_, ?_, ?_, ?_, rfl, rfl⟩
  · intro ch c
    simp [RawRigidBodySet.remove, List.mem_filter]
  · intro jh j
    simp [RawRigidBodySet.remove, List.mem_filter, and_assoc]
  · intro jh j
    simp [RawRigidBodySet.remove, List.mem_filter, and_assoc]
  · intro b hmem
    simp only [RawRigidBodySet.remove, List.mem_map, List.mem_filter] at hmem
    obtain ⟨p, ⟨_, hne⟩, hfp⟩ := hmem
    by_cases hisl : w.inIsland h p.1
    · rw [if_pos hisl] at hfp
      have : p.1 = h := congrArg Prod.fst hfp
      simp [this] at hne
    · rw [if_neg hisl] at hfp
      have : p.1 = h := congrArg Prod.fst hfp
      simp [this] at hne
  · intro bh b hne hmem
    constructor
    · intro hisl
      simp only [RawRigidBodySet.remove, List.mem_map, List.mem_filter]
      refine ⟨(bh, b), ⟨hmem, by simpa using hne⟩, ?_⟩
      simp [hisl]
    · intro hisl
      simp only [RawRigidBodySet.remove, List.mem_map, List.mem_filter]
      refine ⟨(bh, b), ⟨hmem, by simpa using hne⟩, ?_⟩
      simp [hisl]

/-- A two-body world used to instantiate the removal theorem: bodies
`1` and `2` joined by a revolute joint and both asleep, body `3`
unrelated, a collider on body `1` and a collider on body `3`. -/
def removalWorld : World :=
  ⟨⟨0, -10⟩, ⟨1, 1, 0, 0, 4, 128, 1⟩,
    [(1, ⟨⟨0, 0⟩, 0, Vec2.zero, 0, 0, true, true, 0⟩),
     (2, ⟨⟨2, 0⟩, 0, Vec2.zero, 0, 0, true, true, 0⟩),
     (3, ⟨⟨9, 9⟩, 0, Vec2.zero, 0, 0, true, true, 0⟩)],
    [(20, ⟨Shape.cuboid 1 1, Vec2.zero, Rot.identity, some 1, 1, 0, false⟩),
     (21, ⟨Shape.ball 1, Vec2.zero, Rot.identity, some 3, 1, 0, false⟩)],
    [(10, ⟨1, 2, JointParams.revoluteJ ⟨1, 0⟩ ⟨-1, 0⟩⟩)],
    []⟩

/-- C3 witness: removing body `1` from `removalWorld` keeps the
unrelated collider `21` and the unrelated body `3` untouched, and wakes
body `2`, whose island the removal breaks. -/
theorem remove_rigid_body_cascade_witness :
    ((21, ⟨Shape.ball 1, Vec2.zero, Rot.identity, some 3, 1, 0, false⟩) ∈
        (RawRigidBodySet.remove removalWorld 1).colliders)
    ∧ ((3, ⟨⟨9, 9⟩, 0, Vec2.zero, 0, 0, true, true, 0⟩) ∈
        (RawRigidBodySet.remove removalWorld 1).bodies)
    ∧ ((2, Body.wake ⟨⟨2, 0⟩, 0, Vec2.zero, 0, 0, true, true, 0⟩) ∈
        (RawRigidBodySet.remove removalWorld 1).bodies) := by
  have h := remove_rigid_body_cascade removalWorld 1
  refine ⟨?_, ?_, ?_⟩
  · exact (h.1 21 _).mpr (by decide)
  · exact ((h.2.2.2.2.1 3 _ (by decide) (by decide)).1 (by decide))
  · exact ((h.2.2.2.2.1 2 _ (by decide) (by decide)).2 (by decide))

/-- Put a body to sleep: set the sleeping flag and zero both velocities
(spec §3 invariant: a sleeping body has exactly zero linear and angular
velocity). -/
def Body.sleepNow (b : Body) : Body :=
  ⟨b.translation, b.rotAngle, Vec2.zero, 0, b.bodyType, true, b.canSleep,
    b.sleepTimer⟩

/-- Set the linear velocity.  Spec §4.3: an externally injected velocity
is an external event that wakes the body, so a sleeping body stays
asleep only when the write is a no-op zero write without the wake
flag. -/
def Body.withLinvel (b : Body) (v : Vec2) (wakeUp : Bool) : Body :=
  ⟨b.translation, b.rotAngle, v, b.angvel, b.bodyType,
    if wakeUp = true ∨ v ≠ Vec2.zero then false else b.sleeping, b.canSleep,
    if wakeUp = true ∨ v ≠ Vec2.zero then 0 else b.sleepTimer⟩

/-- Set the angular velocity; wake handling as in `Body.withLinvel`. -/
def Body.withAngvel (b : Body) (v : ℚ) (wakeUp : Bool) : Body :=
  ⟨b.translation, b.rotAngle, b.linvel, v, b.bodyType,
    if wakeUp = true ∨ v ≠ 0 then false else b.sleeping, b.canSleep,
    if wakeUp = true ∨ v ≠ 0 then 0 else b.sleepTimer⟩

/-- Set the world-space translation, optionally waking the body
(`rbSetTranslation` of `src/rapier_wasm2d.d.ts`). -/
def Body.withTranslation (b : Body) (x y : ℚ) (wakeUp : Bool) : Body :=
  ⟨⟨x, y⟩, b.rotAngle, b.linvel, b.angvel, b.bodyType,
    if wakeUp then false else b.sleeping, b.canSleep,
    if wakeUp then 0 else b.sleepTimer⟩

/-- The number of consecutive below-threshold steps after which a body
may fall asleep.  Spec §9 fixes the role of this constant, not its
magnitude. -/
def sleepStepsThreshold : Nat := 5

/-- Modelled from the spec: the per-body effect of the step entry point
(`RawPhysicsPipeline.step`; WASM body not in `src/`).  Sleeping bodies
are excluded from the solve (spec §4.3); an awake dynamic body first
gains gravity velocity, then integrates its position from the updated
velocity (symplectic Euler, spec §4.4 item 4); a dynamic body whose
velocities stay at the sleep threshold for `sleepStepsThreshold`
consecutive steps falls asleep with zeroed velocities; non-dynamic
bodies are never put to sleep implicitly and their externally driven
poses are left to their dedicated setters. -/
def Body.stepOnce (gravity : Vec2) (dt : ℚ) (b : Body) : Body :=
  if b.sleeping then b
  else if b.bodyType ≠ 0 then b
  else if b.canSleep ∧ b.linvel.add (Vec2.smul dt gravity) = Vec2.zero
      ∧ b.angvel = 0 ∧ sleepStepsThreshold ≤ b.sleepTimer + 1 then
    ⟨b.translation.add (Vec2.smul dt (b.linvel.add (Vec2.smul dt gravity))),
      b.rotAngle + dt * b.angvel, Vec2.zero, 0, 0, true, b.canSleep,
      b.sleepTimer + 1⟩
  else
    ⟨b.translation.add (Vec2.smul dt (b.linvel.add (Vec2.smul dt gravity))),
      b.rotAngle + dt * b.angvel, b.linvel.add (Vec2.smul dt gravity),
      b.angvel, 0, false, b.canSleep,
      if b.canSleep ∧ b.linvel.add (Vec2.smul dt gravity) = Vec2.zero
          ∧ b.angvel = 0 then b.sleepTimer + 1 else 0⟩

/-- The modelled mutating operation surface of `RawRigidBodySet` and the
step entry point of `RawPhysicsPipeline` (spec §6), as far as the sleep
invariant is concerned. -/
inductive RbOp where
  | rbSleep (h : Nat)
  | rbWakeUp (h : Nat)
  | rbSetTranslation (h : Nat) (x y : ℚ) (wakeUp : Bool)
  | rbSetLinvel (h : Nat) (v : Vec2) (wakeUp : Bool)
  | rbSetAngvel (h : Nat) (v : ℚ) (wakeUp : Bool)
  | step (gravity : Vec2) (dt : ℚ)

/-- Apply a body-to-body transform at one handle of the set. -/
def updateAt (s : List (Nat × Body)) (h : Nat) (f : Body → Body) :
    List (Nat × Body) :=
  s.map (fun p => if p.1 = h then (p.1, f p.2) else p)

/-- Modelled from the spec: the state transition of each modelled
operation on the rigid-body set (the WASM bodies of the `rb*` methods
and of `RawPhysicsPipeline.step` are not in `src/`). -/
def applyRbOp : RbOp → List (Nat × Body) → List (Nat × Body)
  | .rbSleep h, s => updateAt s h Body.sleepNow
  | .rbWakeUp h, s => updateAt s h Body.wake
  | .rbSetTranslation h x y wk, s =>
      updateAt s h (fun b => b.withTranslation x y wk)
  | .rbSetLinvel h v wk, s => updateAt s h (fun b => b.withLinvel v wk)
  | .rbSetAngvel h v wk, s => updateAt s h (fun b => b.withAngvel v wk)
  | .step g dt, s => s.map (fun p => (p.1, p.2.stepOnce g dt))

/-- The sleep invariant for one body: sleeping implies exactly zero
linear and angular velocity. -/
def sleepOk (b : Body) : Prop :=
  b.sleeping = true → b.linvel = Vec2.zero ∧ b.angvel = 0

/-- The sleep invariant over a whole rigid-body set. -/
def sleepInv (s : List (Nat × Body)) : Prop :=
  ∀ p ∈ s, sleepOk p.2

/-- `Body.sleepNow` establishes the sleep invariant outright. -/
theorem sleepOk_sleepNow (b : Body) : sleepOk b.sleepNow := by
  intro _
  exact ⟨rfl, rfl⟩

/-- Waking preserves the sleep invariant (vacuously). -/
theorem sleepOk_wake (b : Body) : sleepOk b.wake := by
  intro hs
  simp [Body.wake] at hs

/-- Setting the linear velocity preserves the sleep invariant. -/
theorem sleepOk_withLinvel (b : Body) (v : Vec2) (wk : Bool)
    (hb : sleepOk b) : sleepOk (b.withLinvel v wk) := by
  unfold Body.withLinvel sleepOk
  split
  · intro hs
    simp at hs
  · intro hs
    next hcond =>
      push_neg at hcond
      exact ⟨hcond.2, (hb hs).2⟩

/-- Setting the angular velocity preserves the sleep invariant. -/
theorem sleepOk_withAngvel (b : Body) (v : ℚ) (wk : Bool)
    (hb : sleepOk b) : sleepOk (b.withAngvel v wk) := by
  unfold Body.withAngvel sleepOk
  split
  · intro hs
    simp at hs
  · intro hs
    next hcond =>
      push_neg at hcond
      exact ⟨(hb hs).1, hcond.2⟩

/-- Setting the translation preserves the sleep invariant. -/
theorem sleepOk_withTranslation (b : Body) (x y : ℚ) (wk : Bool)
    (hb : sleepOk b) : sleepOk (b.withTranslation x y wk) := by
  unfold Body.withTranslation sleepOk
  split
  · intro hs
    simp at hs
  · exact fun hs => hb hs

/-- One step preserves the sleep invariant at each body. -/
theorem sleepOk_stepOnce (g : Vec2) (dt : ℚ) (b : Body)
    (hb : sleepOk b) : sleepOk (b.stepOnce g dt) := by
  unfold Body.stepOnce
  split
  · exact hb
  · split
    · exact hb
    · split
      · intro _
        exact ⟨rfl, rfl⟩
      · intro hs
        simp at hs

/-- `updateAt` preserves the set-wide sleep invariant whenever the
applied transform preserves it pointwise. -/
theorem sleepInv_updateAt (s : List (Nat × Body)) (h : Nat)
    (f : Body → Body) (hf : ∀ b, sleepOk b → sleepOk (f b))
    (hs : sleepInv s) : sleepInv (updateAt s h f) := by
  intro p hp
  rcases List.mem_map.1 hp with ⟨q, hq, rfl⟩
  by_cases hqh : q.1 = h
  · simp only [if_pos hqh]
    exact hf q.2 (hs q hq)
  · simp only [if_neg hqh]
    exact hs q hq

/-- Look a body up by handle in the set. -/
def rbFind (s : List (Nat × Body)) (h : Nat) : Option Body :=
  (s.find? (fun p => p.1 = h)).map (fun p => p.2)

/-- Modelled from the spec: `RawRigidBodySet.rbIsSleeping` of
`src/rapier_wasm2d.d.ts` (WASM body not in `src/`): the sleeping flag
of the addressed body. -/
def RawRigidBodySet.rbIsSleeping (s : List (Nat × Body)) (h : Nat) : Bool :=
  ((rbFind s h).map (fun b => b.sleeping)).getD false

/-- Modelled from the spec: `RawRigidBodySet.rbLinvel` of
`src/rapier_wasm2d.d.ts` (WASM body not in `src/`): the linear velocity
of the addressed body. -/
def RawRigidBodySet.rbLinvel (s : List (Nat × Body)) (h : Nat) : Vec2 :=
  ((rbFind s h).map (fun b => b.linvel)).getD Vec2.zero

/-- Modelled from the spec: `RawRigidBodySet.rbAngvel` of
`src/rapier_wasm2d.d.ts` (WASM body not in `src/`): the angular velocity
of the addressed body. -/
def RawRigidBodySet.rbAngvel (s : List (Nat × Body)) (h : Nat) : ℚ :=
  ((rbFind s h).map (fun b => b.angvel)).getD 0

/-- C4: the sleep invariant — every sleeping body has exactly zero
linear and angular velocity — holds of the accessors (`rbIsSleeping`
true implies `rbLinvel` zero and `rbAngvel` zero) on any set satisfying
it, and is preserved by every modelled operation, including `rbSleep`
and the step entry point. -/
theorem sleeping_implies_zero_velocity (op : RbOp) (s : List (Nat × Body))
    (hs : sleepInv s) :
    sleepInv (applyRbOp op s)
    ∧ ∀ h, RawRigidBodySet.rbIsSleeping s h = true →
        RawRigidBodySet.rbLinvel s h = Vec2.zero
          ∧ RawRigidBodySet.rbAngvel s h = 0 := by
  constructor
  · cases op with
    | rbSleep h =>
      exact sleepInv_updateAt s h _ (fun b _ => sleepOk_sleepNow b) hs
    | rbWakeUp h =>
      exact sleepInv_updateAt s h _ (fun b _ => sleepOk_wake b) hs
    | rbSetTranslation h x y wk =>
      exact sleepInv_updateAt s h _
        (fun b hb => sleepOk_withTranslation b x y wk hb) hs
    | rbSetLinvel h v wk =>
      exact sleepInv_updateAt s h _
        (fun b hb => sleepOk_withLinvel b v wk hb) hs
    | rbSetAngvel h v wk =>
      exact sleepInv_updateAt s h _
        (fun b hb => sleepOk_withAngvel b v wk hb) hs
    | step g dt =>
      intro p hp
      rcases List.mem_map.1 hp with ⟨q, hq, rfl⟩
      exact sleepOk_stepOnce g dt q.2 (hs q hq)
  · intro h hsleep
    unfold RawRigidBodySet.rbIsSleeping RawRigidBodySet.rbLinvel
      RawRigidBodySet.rbAngvel rbFind at *
    cases hfind : List.find? (fun p => p.1 = h) s with
    | none =>
      rw [hfind] at hsleep
      simp at hsleep
    | some p =>
      rw [hfind] at hsleep
      simp at hsleep ⊢
      exact hs p (List.mem_of_find?_eq_some hfind) hsleep

/-- A two-body set used to instantiate the sleep-invariant theorem:
body `1` asleep at rest, body `2` awake and moving. -/
def sleepWorldBodies : List (Nat × Body) :=
  [(1, ⟨⟨0, 0⟩, 0, Vec2.zero, 0, 0, true, true, 7⟩),
   (2, ⟨⟨4, 0⟩, 0, ⟨3, 0⟩, 1, 0, false, true, 0⟩)]

/-- C4 witness: the invariant theorem applied to `sleepWorldBodies`
and the `rbSleep 2` operation. -/
theorem sleeping_implies_zero_velocity_witness :
    sleepInv (applyRbOp (RbOp.rbSleep 2) sleepWorldBodies)
    ∧ (RawRigidBodySet.rbIsSleeping sleepWorldBodies 1 = true →
        RawRigidBodySet.rbLinvel sleepWorldBodies 1 = Vec2.zero
          ∧ RawRigidBodySet.rbAngvel sleepWorldBodies 1 = 0) := by
  have h := sleeping_implies_zero_velocity (RbOp.rbSleep 2) sleepWorldBodies
    (by unfold sleepInv sleepOk; decide)
  exact ⟨h.1, h.2 1⟩

/-- The next unused collider handle of a world. -/
def freshColliderHandle (w : World) : Nat :=
  (w.colliders.map Prod.fst).foldl (fun a b => max a b) 0 + 1

/-- Modelled from the spec: `RawColliderSet.createCollider` of
`src/rapier_wasm2d.d.ts` (WASM body not in `src/`).  Its declared
return type is `number | undefined`: when `hasParent` is set and the
supplied parent handle addresses no rigid body in the set, no collider
is created and no handle is returned; otherwise the collider is stored
(parented when `hasParent` is set) under a fresh handle, which is
returned. -/
def RawColliderSet.createCollider (w : World) (c : Collider)
    (hasParent : Bool) (parent : Nat) : Option Nat × World :=
  if hasParent = true ∧ ∀ p ∈ w.bodies, p.1 ≠ parent then (none, w)
  else
    (some (freshColliderHandle w),
      ⟨w.gravity, w.params, w.bodies,
        w.colliders ++ [(freshColliderHandle w,
          ⟨c.shape, c.translation, c.rotation,
            if hasParent then some parent else none,
            c.friction, c.restitution, c.isSensor⟩)],
        w.impulseJoints, w.multibodyJoints⟩)

/-- C8: collider creation can fail at the public interface: when
`hasParent` is set and the parent handle is not present in the
rigid-body set, `createCollider` returns no handle (`undefined`) and
leaves the whole world — in particular the collider set — unchanged. -/
theorem createCollider_missing_parent_fails (w : World) (c : Collider)
    (parent : Nat) (hp : ∀ p ∈ w.bodies, p.1 ≠ parent) :
    RawColliderSet.createCollider w c true parent = (none, w)
    ∧ (RawColliderSet.createCollider w c true parent).2.colliders
        = w.colliders := by
  have hcond : (true : Bool) = true ∧ ∀ p ∈ w.bodies, p.1 ≠ parent :=
    ⟨rfl, hp⟩
  constructor
  · unfold RawColliderSet.createCollider
    rw [if_pos hcond]
  · unfold RawColliderSet.createCollider
    rw [if_pos hcond]

/-- C8 witness: creating a collider parented to the absent body handle
`99` in `removalWorld` fails and leaves the world unchanged. -/
theorem createCollider_missing_parent_fails_witness :
    RawColliderSet.createCollider removalWorld
        ⟨Shape.ball 2, Vec2.zero, Rot.identity, none, 1, 0, false⟩ true 99
      = (none, removalWorld)
    ∧ (RawColliderSet.createCollider removalWorld
        ⟨Shape.ball 2, Vec2.zero, Rot.identity, none, 1, 0, false⟩ true
        99).2.colliders = removalWorld.colliders :=
  createCollider_missing_parent_fails removalWorld
    ⟨Shape.ball 2, Vec2.zero, Rot.identity, none, 1, 0, false⟩ 99 (by decide)

/-- C2 witness: the joint-factory contract applied at concrete inputs —
the zero axis for `prismatic`, identity frames for `fixed` and the unit
anchors for `revolute`. -/
theorem joint_factory_contract_witness :
    (RawGenericJoint.prismatic ⟨0, 1⟩ ⟨2, 3⟩ ⟨0, 0⟩ true (-1) 1 = none
      ↔ (⟨0, 0⟩ : Vec2) = Vec2.zero)
    ∧ (∃ j, RawGenericJoint.fixed ⟨0, 1⟩ Rot.identity ⟨2, 3⟩ Rot.identity
        = j)
    ∧ RawGenericJoint.revolute ⟨0, 1⟩ ⟨2, 3⟩ ≠ none :=
  joint_factory_contract ⟨0, 1⟩ ⟨2, 3⟩ ⟨0, 0⟩ true (-1) 1 Rot.identity
    Rot.identity

/-- A ray hit found by the query pipeline, mirroring `RawRayColliderToi`
of `src/rapier_wasm2d.d.ts`. -/
structure RawRayColliderToi where
  colliderHandle : Nat
  toi : ℚ
deriving DecidableEq

/-- A ray hit with normal, mirroring `RawRayColliderIntersection` of
`src/rapier_wasm2d.d.ts`. -/
structure RawRayColliderIntersection where
  colliderHandle : Nat
  toi : ℚ
  normal : Vec2
deriving DecidableEq

/-- A point projection onto a collider, mirroring
`RawPointColliderProjection` of `src/rapier_wasm2d.d.ts`. -/
structure RawPointColliderProjection where
  colliderHandle : Nat
  point : Vec2
  isInside : Bool
deriving DecidableEq

/-- A shape-cast hit, mirroring `RawShapeColliderTOI` of
`src/rapier_wasm2d.d.ts`. -/
structure RawShapeColliderTOI where
  colliderHandle : Nat
  toi : ℚ
deriving DecidableEq

/-- A narrow-phase contact pair, mirroring `RawContactPair` of
`src/rapier_wasm2d.d.ts` (the two collider handles; manifold payloads
live in the missing engine). -/
structure RawContactPair where
  collider1 : Nat
  collider2 : Nat
deriving DecidableEq

/-- Keep the better (lower-ranked) of an accumulated candidate and a
fresh candidate. -/
def pickBest (rank : α → ℚ) : Option α → Option α → Option α
  | none, r => r
  | some b, none => some b
  | some b, some c => if rank c < rank b then some c else some b

/-- Fold a per-collider query over the collider set, keeping the
best-ranked (nearest) result; `none` when every collider yields
nothing. -/
def queryFold (f : Nat × Collider → Option α) (rank : α → ℚ)
    (colliders : List (Nat × Collider)) : Option α :=
  colliders.foldl (fun best c => pickBest rank best (f c)) none

/-- When every collider yields nothing, the query fold yields nothing. -/
theorem queryFold_eq_none (f : Nat × Collider → Option α) (rank : α → ℚ)
    (colliders : List (Nat × Collider))
    (hf : ∀ c ∈ colliders, f c = none) :
    queryFold f rank colliders = none := by
  unfold queryFold
  induction colliders with
  | nil => rfl
  | cons c cs ih =>
    have hc := hf c (List.mem_cons_self c cs)
    simp only [List.foldl_cons, hc, pickBest]
    exact ih (fun d hd => hf d (List.mem_cons_of_mem c hd))

/-- Squared Euclidean distance (rank used for nearest-candidate
selection; monotone in the true distance). -/
def dist2 (a b : Vec2) : ℚ :=
  (a.x - b.x) * (a.x - b.x) + (a.y - b.y) * (a.y - b.y)

/-- Clamp a scalar into an interval. -/
def clampQ (v lo hi : ℚ) : ℚ := max lo (min v hi)

/-- Modelled from the spec: point projection onto an axis-aligned cuboid
in its local frame (the WASM routine behind `projectPoint` is not in
`src/`).  An outside point clamps to the box; an inside point projects
to itself when `solid`, and to the nearest boundary face otherwise.
The second component is the inside/outside test. -/
def cuboidLocalProject (hx hy : ℚ) (p : Vec2) (solid : Bool) :
    Vec2 × Bool :=
  if -hx ≤ p.x ∧ p.x ≤ hx ∧ -hy ≤ p.y ∧ p.y ≤ hy then
    if solid then (p, true)
    else
      if p.x + hx ≤ hx - p.x ∧ p.x + hx ≤ p.y + hy ∧ p.x + hx ≤ hy - p.y then
        (⟨-hx, p.y⟩, true)
      else if hx - p.x ≤ p.y + hy ∧ hx - p.x ≤ hy - p.y then
        (⟨hx, p.y⟩, true)
      else if p.y + hy ≤ hy - p.y then (⟨p.x, -hy⟩, true)
      else (⟨p.x, hy⟩, true)
  else (⟨clampQ p.x (-hx) hx, clampQ p.y (-hy) hy⟩, false)

/-- Modelled from the spec: per-collider point projection (pose handled
by moving the point into the local frame and the result back out).
Only the cuboid routine is modelled; the remaining variants' routines
are part of the missing engine and report no candidate. -/
def projectPointImpl (c : Collider) (point : Vec2) (solid : Bool) :
    Option (Vec2 × Bool) :=
  match c.shape with
  | .cuboid hx hy =>
    match cuboidLocalProject hx hy (c.rotation.applyInv
        (point.sub c.translation)) solid with
    | (lp, inside) => some (c.translation.add (c.rotation.apply lp), inside)
  | _ => none

/-- Modelled from the spec: per-collider point containment test (cuboid
only; other variants' routines are part of the missing engine). -/
def containsPointImpl (c : Collider) (point : Vec2) : Bool :=
  match c.shape with
  | .cuboid hx hy =>
    decide (-hx ≤ (c.rotation.applyInv (point.sub c.translation)).x
      ∧ (c.rotation.applyInv (point.sub c.translation)).x ≤ hx
      ∧ -hy ≤ (c.rotation.applyInv (point.sub c.translation)).y
      ∧ (c.rotation.applyInv (point.sub c.translation)).y ≤ hy)
  | _ => false

/-- Modelled from the spec: exact intersection test between two posed
shapes.  Modelled for the axis-aligned cuboid/cuboid pair (interval
overlap on both axes); the remaining pairwise routines are part of the
missing engine and report no intersection. -/
def shapesIntersectImpl (sh1 : Shape) (pos1 : Vec2) (rot1 : Rot)
    (sh2 : Shape) (pos2 : Vec2) (rot2 : Rot) : Bool :=
  match sh1, sh2 with
  | .cuboid hx1 hy1, .cuboid hx2 hy2 =>
    if rot1 = Rot.identity ∧ rot2 = Rot.identity then
      decide (|pos2.x - pos1.x| ≤ hx1 + hx2 ∧ |pos2.y - pos1.y| ≤ hy1 + hy2)
    else false
  | _, _ => false

/-- Modelled from the spec: time of impact of a moving shape against a
static posed shape.  Modelled for the axis-aligned cuboid/cuboid pair by
casting the relative-position ray against the Minkowski-sum box; the
remaining pairwise sweeps are part of the missing engine. -/
def shapeCastImpl (sh1 : Shape) (pos1 : Vec2) (rot1 : Rot) (vel1 : Vec2)
    (sh2 : Shape) (pos2 : Vec2) (rot2 : Rot) (maxToi : ℚ) : Option ℚ :=
  match sh1, sh2 with
  | .cuboid hx1 hy1, .cuboid hx2 hy2 =>
    if rot1 = Rot.identity ∧ rot2 = Rot.identity then
      (cuboidLocalCastRay (hx1 + hx2) (hy1 + hy2) (pos1.sub pos2) vel1
        maxToi true).map (fun i => i.toi)
    else none
  | _, _ => none

/-- An axis-aligned bounding box given by its two extreme corners. -/
structure Aabb where
  mins : Vec2
  maxs : Vec2
deriving DecidableEq

/-- The tight AABB of a non-empty vertex list (the empty list gets the
degenerate box at the origin). -/
def vertsAabb : List Vec2 → Aabb
  | [] => ⟨Vec2.zero, Vec2.zero⟩
  | v :: rest =>
    rest.foldl (fun a p =>
      ⟨⟨min a.mins.x p.x, min a.mins.y p.y⟩,
        ⟨max a.maxs.x p.x, max a.maxs.y p.y⟩⟩) ⟨v, v⟩

/-- Grow an AABB by a border radius in every direction. -/
def Aabb.inflate (a : Aabb) (r : ℚ) : Aabb :=
  ⟨⟨a.mins.x - r, a.mins.y - r⟩, ⟨a.maxs.x + r, a.maxs.y + r⟩⟩

/-- Minimum of a rational list with a seed. -/
def listMinQ (q : ℚ) (qs : List ℚ) : ℚ := qs.foldl min q

/-- Maximum of a rational list with a seed. -/
def listMaxQ (q : ℚ) (qs : List ℚ) : ℚ := qs.foldl max q

/-- Modelled from the spec: the local-frame AABB of each shape variant
(spec §4.1: one conservative bounding box per collider). -/
def Shape.localAabb : Shape → Aabb
  | .ball r => ⟨⟨-r, -r⟩, ⟨r, r⟩⟩
  | .cuboid hx hy => ⟨⟨-hx, -hy⟩, ⟨hx, hy⟩⟩
  | .capsule hh r => ⟨⟨-r, -hh - r⟩, ⟨r, hh + r⟩⟩
  | .segment a b => vertsAabb [a, b]
  | .polyline vs _ => vertsAabb vs
  | .triangle a b c => vertsAabb [a, b, c]
  | .trimesh vs _ => vertsAabb vs
  | .heightfield hs sc =>
    ⟨⟨-sc.x / 2, listMinQ 0 (hs.map (fun h => h * sc.y))⟩,
      ⟨sc.x / 2, listMaxQ 0 (hs.map (fun h => h * sc.y))⟩⟩
  | .convexPolygon vs => vertsAabb vs
  | .roundCuboid hx hy br => Aabb.inflate ⟨⟨-hx, -hy⟩, ⟨hx, hy⟩⟩ br
  | .roundTriangle a b c br => Aabb.inflate (vertsAabb [a, b, c]) br
  | .roundConvexPolygon vs br => Aabb.inflate (vertsAabb vs) br

/-- The four corners of an AABB. -/
def Aabb.corners (a : Aabb) : List Vec2 :=
  [a.mins, ⟨a.mins.x, a.maxs.y⟩, ⟨a.maxs.x, a.mins.y⟩, a.maxs]

/-- Translate an AABB. -/
def Aabb.translate (a : Aabb) (t : Vec2) : Aabb :=
  ⟨a.mins.add t, a.maxs.add t⟩

/-- The world-space AABB of a posed collider: rotate the local box's
corners and bound them, then translate. -/
def colliderAabb (c : Collider) : Aabb :=
  Aabb.translate (vertsAabb ((c.shape.localAabb.corners).map
    c.rotation.apply)) c.translation

/-- AABB overlap test. -/
def Aabb.intersects (a b : Aabb) : Bool :=
  decide (a.mins.x ≤ b.maxs.x ∧ b.mins.x ≤ a.maxs.x
    ∧ a.mins.y ≤ b.maxs.y ∧ b.mins.y ≤ a.maxs.y)

/-- Nearest-hit ray cast over the collider set. -/
def qpCastRay (colliders : List (Nat × Collider)) (ray : Ray) (maxToi : ℚ)
    (solid : Bool) : Option RawRayColliderToi :=
  queryFold (fun c => (rayCastImpl c.2.shape c.2.translation c.2.rotation
      ray maxToi solid).map (fun i => ⟨c.1, i.toi⟩))
    (fun r => r.toi) colliders

/-- Nearest-hit ray cast with normal over the collider set. -/
def qpCastRayAndGetNormal (colliders : List (Nat × Collider)) (ray : Ray)
    (maxToi : ℚ) (solid : Bool) : Option RawRayColliderIntersection :=
  queryFold (fun c => (rayCastImpl c.2.shape c.2.translation c.2.rotation
      ray maxToi solid).map (fun i => ⟨c.1, i.toi, i.normal⟩))
    (fun r => r.toi) colliders

/-- All ray hits over the collider set. -/
def qpIntersectionsWithRay (colliders : List (Nat × Collider)) (ray : Ray)
    (maxToi : ℚ) (solid : Bool) : List RawRayColliderIntersection :=
  colliders.filterMap (fun c => (rayCastImpl c.2.shape c.2.translation
    c.2.rotation ray maxToi solid).map (fun i => ⟨c.1, i.toi, i.normal⟩))

/-- First collider intersecting a posed query shape. -/
def qpIntersectionWithShape (colliders : List (Nat × Collider))
    (shapePos : Vec2) (shapeRot : Rot) (shape : Shape) : Option Nat :=
  (colliders.find? (fun c => shapesIntersectImpl shape shapePos shapeRot
    c.2.shape c.2.translation c.2.rotation)).map (fun c => c.1)

/-- Nearest point projection over the collider set. -/
def qpProjectPoint (colliders : List (Nat × Collider)) (point : Vec2)
    (solid : Bool) : Option RawPointColliderProjection :=
  queryFold (fun c => (projectPointImpl c.2 point solid).map
      (fun pr => ⟨c.1, pr.1, pr.2⟩))
    (fun r => dist2 r.point point) colliders

/-- Nearest point projection with feature information (the raw binding
exposes the same projection record; the boundary-projection variant of
the engine corresponds to the non-solid mode). -/
def qpProjectPointAndGetFeature (colliders : List (Nat × Collider))
    (point : Vec2) : Option RawPointColliderProjection :=
  qpProjectPoint colliders point true

/-- All colliders containing a point. -/
def qpIntersectionsWithPoint (colliders : List (Nat × Collider))
    (point : Vec2) : List Nat :=
  (colliders.filter (fun c => containsPointImpl c.2 point)).map
    (fun c => c.1)

/-- Nearest time-of-impact shape cast over the collider set. -/
def qpCastShape (colliders : List (Nat × Collider)) (shapePos : Vec2)
    (shapeRot : Rot) (shapeVel : Vec2) (shape : Shape) (maxToi : ℚ) :
    Option RawShapeColliderTOI :=
  queryFold (fun c => (shapeCastImpl shape shapePos shapeRot shapeVel
      c.2.shape c.2.translation c.2.rotation maxToi).map
      (fun t => ⟨c.1, t⟩))
    (fun r => r.toi) colliders

/-- All colliders intersecting a posed query shape. -/
def qpIntersectionsWithShape (colliders : List (Nat × Collider))
    (shapePos : Vec2) (shapeRot : Rot) (shape : Shape) : List Nat :=
  (colliders.filter (fun c => shapesIntersectImpl shape shapePos shapeRot
    c.2.shape c.2.translation c.2.rotation)).map (fun c => c.1)

/-- All colliders whose AABB meets the query AABB. -/
def qpCollidersWithAabbIntersectingAabb (colliders : List (Nat × Collider))
    (center halfExt : Vec2) : List Nat :=
  (colliders.filter (fun c => (colliderAabb c.2).intersects
    ⟨center.sub halfExt, center.add halfExt⟩)).map (fun c => c.1)

/-- Modelled from the spec: `RawQueryPipeline.castRay` of
`src/rapier_wasm2d.d.ts` (WASM body not in `src/`).  Spec §4.7: queries
never mutate body/collider/joint state, so each pipeline operation is
modelled as explicit state passing returning its result together with
the world it was given; the model is a total function, so no query can
raise an exception. -/
def RawQueryPipeline.castRay (w : World) (ray : Ray) (maxToi : ℚ)
    (solid : Bool) : Option RawRayColliderToi × World :=
  (qpCastRay w.colliders ray maxToi solid, w)

/-- Modelled from the spec: `RawQueryPipeline.castRayAndGetNormal`
(state-passing, as for `RawQueryPipeline.castRay`). -/
def RawQueryPipeline.castRayAndGetNormal (w : World) (ray : Ray)
    (maxToi : ℚ) (solid : Bool) :
    Option RawRayColliderIntersection × World :=
  (qpCastRayAndGetNormal w.colliders ray maxToi solid, w)

/-- Modelled from the spec: `RawQueryPipeline.intersectionsWithRay`
(state-passing; the callback of the binding is modelled by returning
the list of hits it would be called with). -/
def RawQueryPipeline.intersectionsWithRay (w : World) (ray : Ray)
    (maxToi : ℚ) (solid : Bool) :
    List RawRayColliderIntersection × World :=
  (qpIntersectionsWithRay w.colliders ray maxToi solid, w)

/-- Modelled from the spec: `RawQueryPipeline.intersectionWithShape`
(state-passing). -/
def RawQueryPipeline.intersectionWithShape (w : World) (shapePos : Vec2)
    (shapeRot : Rot) (shape : Shape) : Option Nat × World :=
  (qpIntersectionWithShape w.colliders shapePos shapeRot shape, w)

/-- Modelled from the spec: `RawQueryPipeline.projectPoint`
(state-passing). -/
def RawQueryPipeline.projectPoint (w : World) (point : Vec2)
    (solid : Bool) : Option RawPointColliderProjection × World :=
  (qpProjectPoint w.colliders point solid, w)

/-- Modelled from the spec: `RawQueryPipeline.projectPointAndGetFeature`
(state-passing). -/
def RawQueryPipeline.projectPointAndGetFeature (w : World) (point : Vec2) :
    Option RawPointColliderProjection × World :=
  (qpProjectPointAndGetFeature w.colliders point, w)

/-- Modelled from the spec: `RawQueryPipeline.intersectionsWithPoint`
(state-passing; callback modelled as the returned handle list). -/
def RawQueryPipeline.intersectionsWithPoint (w : World) (point : Vec2) :
    List Nat × World :=
  (qpIntersectionsWithPoint w.colliders point, w)

/-- Modelled from the spec: `RawQueryPipeline.castShape`
(state-passing). -/
def RawQueryPipeline.castShape (w : World) (shapePos : Vec2)
    (shapeRot : Rot) (shapeVel : Vec2) (shape : Shape) (maxToi : ℚ) :
    Option RawShapeColliderTOI × World :=
  (qpCastShape w.colliders shapePos shapeRot shapeVel shape maxToi, w)

/-- Modelled from the spec: `RawQueryPipeline.intersectionsWithShape`
(state-passing; callback modelled as the returned handle list). -/
def RawQueryPipeline.intersectionsWithShape (w : World) (shapePos : Vec2)
    (shapeRot : Rot) (shape : Shape) : List Nat × World :=
  (qpIntersectionsWithShape w.colliders shapePos shapeRot shape, w)

/-- Modelled from the spec:
`RawQueryPipeline.collidersWithAabbIntersectingAabb` (state-passing;
callback modelled as the returned handle list). -/
def RawQueryPipeline.collidersWithAabbIntersectingAabb (w : World)
    (center halfExt : Vec2) : List Nat × World :=
  (qpCollidersWithAabbIntersectingAabb w.colliders center halfExt, w)

/-- Modelled from the spec: `RawNarrowPhase.contact_pair` of
`src/rapier_wasm2d.d.ts` (WASM body not in `src/`): the stored contact
pair of two collider handles in either order, `none` when the pair has
no contact. -/
def RawNarrowPhase.contact_pair (pairs : List RawContactPair)
    (h1 h2 : Nat) : Option RawContactPair :=
  pairs.find? (fun p => (p.collider1 = h1 ∧ p.collider2 = h2)
    ∨ (p.collider1 = h2 ∧ p.collider2 = h1))

/-- C5: a query that finds nothing returns the empty/optional result and,
being a total function of its inputs, raises no exception: a ray cast
over colliders none of which the ray hits returns `none`, a contact-pair
lookup over pairs none of which joins the two handles returns `none`,
and a point projection over colliders none of which yields a candidate
returns `none`. -/
theorem queries_with_no_candidate_return_none (w : World) (ray : Ray)
    (maxToi : ℚ) (solid : Bool) (pairs : List RawContactPair)
    (h1 h2 : Nat) (point : Vec2)
    (hray : ∀ c ∈ w.colliders, rayCastImpl c.2.shape c.2.translation
      c.2.rotation ray maxToi solid = none)
    (hpair : ∀ p ∈ pairs, ¬((p.collider1 = h1 ∧ p.collider2 = h2)
      ∨ (p.collider1 = h2 ∧ p.collider2 = h1)))
    (hproj : ∀ c ∈ w.colliders, projectPointImpl c.2 point solid = none) :
    (RawQueryPipeline.castRay w ray maxToi solid).1 = none
    ∧ RawNarrowPhase.contact_pair pairs h1 h2 = none
    ∧ (RawQueryPipeline.projectPoint w point solid).1 = none := by
  refine ⟨?_, ?_, ?_⟩
  · exact queryFold_eq_none _ _ _ (fun c hc => by rw [hray c hc]; rfl)
  · unfold RawNarrowPhase.contact_pair
    rw [List.find?_eq_none]
    intro p hp
    simpa using hpair p hp
  · exact queryFold_eq_none _ _ _ (fun c hc => by rw [hproj c hc]; rfl)

/-- A world with no entities at all. -/
def emptyWorld : World := ⟨⟨0, -10⟩, ⟨1, 1, 0, 0, 4, 128, 1⟩, [], [], [], []⟩

/-- C5 witness: over the empty world and the empty contact list the
three lookups return `none`. -/
theorem queries_with_no_candidate_return_none_witness :
    (RawQueryPipeline.castRay emptyWorld ⟨⟨0, 0⟩, ⟨1, 0⟩⟩ 10 true).1 = none
    ∧ RawNarrowPhase.contact_pair [] 4 7 = none
    ∧ (RawQueryPipeline.projectPoint emptyWorld ⟨3, 3⟩ true).1 = none :=
  queries_with_no_candidate_return_none emptyWorld ⟨⟨0, 0⟩, ⟨1, 0⟩⟩ 10 true
    [] 4 7 ⟨3, 3⟩ (by decide) (by decide) (by decide)

/-- C7: every query-pipeline operation leaves the body, collider and
joint state it is given entirely unchanged: the world returned alongside
each result equals the input world. -/
theorem queries_never_mutate_state (w : World) (ray : Ray) (maxToi : ℚ)
    (solid : Bool) (point center halfExt shapePos shapeVel : Vec2)
    (shapeRot : Rot) (shape : Shape) :
    (RawQueryPipeline.castRay w ray maxToi solid).2 = w
    ∧ (RawQueryPipeline.castRayAndGetNormal w ray maxToi solid).2 = w
    ∧ (RawQueryPipeline.intersectionsWithRay w ray maxToi solid).2 = w
    ∧ (RawQueryPipeline.intersectionWithShape w shapePos shapeRot
        shape).2 = w
    ∧ (RawQueryPipeline.projectPoint w point solid).2 = w
    ∧ (RawQueryPipeline.projectPointAndGetFeature w point).2 = w
    ∧ (RawQueryPipeline.intersectionsWithPoint w point).2 = w
    ∧ (RawQueryPipeline.castShape w shapePos shapeRot shapeVel shape
        maxToi).2 = w
    ∧ (RawQueryPipeline.intersectionsWithShape w shapePos shapeRot
        shape).2 = w
    ∧ (RawQueryPipeline.collidersWithAabbIntersectingAabb w center
        halfExt).2 = w :=
  ⟨rfl, rfl, rfl, rfl, rfl, rfl, rfl, rfl, rfl, rfl⟩

/-- A serialization token: the model of one atom of the snapshot blob
produced by `RawSerializationPipeline.serializeAll` (numeric payloads,
lengths/tags and flags; the byte-level packing of the opaque binary
codec of spec §6 is abstracted into one token per atom). -/
inductive Tok where
  | q (v : ℚ)
  | n (v : Nat)
  | b (v : Bool)
deriving DecidableEq

/-- Encode one rational. -/
def encQ (v : ℚ) : List Tok := [.q v]

/-- Encode one natural (handle, tag or count). -/
def encN (v : Nat) : List Tok := [.n v]

/-- Encode one flag. -/
def encB (v : Bool) : List Tok := [.b v]

/-- Encode a vector. -/
def encVec2 (v : Vec2) : List Tok := [.q v.x, .q v.y]

/-- Encode a rotation. -/
def encRot (r : Rot) : List Tok := [.q r.re, .q r.im]

/-- Encode an optional handle (presence flag, then the handle). -/
def encOptN : Option Nat → List Tok
  | none => [.b false]
  | some k => [.b true, .n k]

/-- Encode a segment index pair. -/
def encPair2 (p : Nat × Nat) : List Tok := [.n p.1, .n p.2]

/-- Encode a triangle index triple. -/
def encPair3 (p : Nat × Nat × Nat) : List Tok := [.n p.1, .n p.2.1, .n p.2.2]

/-- Encode a list: length prefix, then the elements. -/
def encList (enc : α → List Tok) (xs : List α) : List Tok :=
  Tok.n xs.length :: (xs.map enc).flatten

/-- Decode one rational. -/
def decQ : List Tok → Option (ℚ × List Tok)
  | .q v :: ts => some (v, ts)
  | _ => none

/-- Decode one natural. -/
def decN : List Tok → Option (Nat × List Tok)
  | .n v :: ts => some (v, ts)
  | _ => none

/-- Decode one flag. -/
def decB : List Tok → Option (Bool × List Tok)
  | .b v :: ts => some (v, ts)
  | _ => none

/-- Decode a vector. -/
def decVec2 : List Tok → Option (Vec2 × List Tok)
  | .q x :: .q y :: ts => some (⟨x, y⟩, ts)
  | _ => none

/-- Decode a rotation. -/
def decRot : List Tok → Option (Rot × List Tok)
  | .q re :: .q im :: ts => some (⟨re, im⟩, ts)
  | _ => none

/-- Decode an optional handle. -/
def decOptN : List Tok → Option (Option Nat × List Tok)
  | .b false :: ts => some (none, ts)
  | .b true :: .n k :: ts => some (some k, ts)
  | _ => none

/-- Decode a segment index pair. -/
def decPair2 : List Tok → Option ((Nat × Nat) × List Tok)
  | .n a :: .n b :: ts => some ((a, b), ts)
  | _ => none

/-- Decode a triangle index triple. -/
def decPair3 : List Tok → Option ((Nat × Nat × Nat) × List Tok)
  | .n a :: .n b :: .n c :: ts => some ((a, b, c), ts)
  | _ => none

/-- Decode exactly `k` consecutive elements. -/
def decCount (dec : List Tok → Option (α × List Tok)) :
    Nat → List Tok → Option (List α × List Tok)
  | 0, ts => some ([], ts)
  | k + 1, ts => do
    let (a, ts1) ← dec ts
    let (as, ts2) ← decCount dec k ts1
    return (a :: as, ts2)

/-- Decode a length-prefixed list. -/
def decList (dec : List Tok → Option (α × List Tok)) :
    List Tok → Option (List α × List Tok)
  | .n k :: ts => decCount dec k ts
  | _ => none

/-- An element decoder that inverts its encoder lifts to `decCount`. -/
theorem decCount_encodes (dec : List Tok → Option (α × List Tok))
    (enc : α → List Tok)
    (hook : ∀ a r, dec (enc a ++ r) = some (a, r)) :
    ∀ (xs : List α) (r : List Tok),
      decCount dec xs.length ((xs.map enc).flatten ++ r) = some (xs, r) := by
  intro xs
  induction xs with
  | nil => intro r; rfl
  | cons a as ih =>
    intro r
    have hsplit : (((a :: as).map enc).flatten ++ r)
        = enc a ++ ((as.map enc).flatten ++ r) := by
      simp
    rw [hsplit]
    show decCount dec (as.length + 1)
      (enc a ++ ((as.map enc).flatten ++ r)) = some (a :: as, r)
    rw [decCount, hook a]
    show (decCount dec as.length ((as.map enc).flatten ++ r)).bind
      (fun q => some (a :: q.1, q.2)) = some (a :: as, r)
    rw [ih r]
    rfl

/-- An element decoder that inverts its encoder lifts to `decList`. -/
theorem decList_encodes (dec : List Tok → Option (α × List Tok))
    (enc : α → List Tok)
    (hook : ∀ a r, dec (enc a ++ r) = some (a, r))
    (xs : List α) (r : List Tok) :
    decList dec (encList enc xs ++ r) = some (xs, r) :=
  decCount_encodes dec enc hook xs r

/-- Specialized list hook: vectors. -/
theorem decList_encVec2 (xs : List Vec2) (r : List Tok) :
    decList decVec2 (encList encVec2 xs ++ r) = some (xs, r) :=
  decList_encodes decVec2 encVec2 (fun a r => rfl) xs r

/-- Specialized list hook: rationals. -/
theorem decList_encQ (xs : List ℚ) (r : List Tok) :
    decList decQ (encList encQ xs ++ r) = some (xs, r) :=
  decList_encodes decQ encQ (fun a r => rfl) xs r

/-- Specialized list hook: index pairs. -/
theorem decList_encPair2 (xs : List (Nat × Nat)) (r : List Tok) :
    decList decPair2 (encList encPair2 xs ++ r) = some (xs, r) :=
  decList_encodes decPair2 encPair2 (fun a r => rfl) xs r

/-- Specialized list hook: index triples. -/
theorem decList_encPair3 (xs : List (Nat × Nat × Nat)) (r : List Tok) :
    decList decPair3 (encList encPair3 xs ++ r) = some (xs, r) :=
  decList_encodes decPair3 encPair3 (fun a r => rfl) xs r

/-- Encode a shape, tagged with its `ShapeType` enum value. -/
def encShape : Shape → List Tok
  | .ball r => Tok.n 0 :: encQ r
  | .cuboid hx hy => Tok.n 1 :: (encQ hx ++ encQ hy)
  | .capsule hh r => Tok.n 2 :: (encQ hh ++ encQ r)
  | .segment a b => Tok.n 3 :: (encVec2 a ++ encVec2 b)
  | .polyline vs is => Tok.n 4 :: (encList encVec2 vs ++ encList encPair2 is)
  | .triangle a b c => Tok.n 5 :: (encVec2 a ++ encVec2 b ++ encVec2 c)
  | .trimesh vs is => Tok.n 6 :: (encList encVec2 vs ++ encList encPair3 is)
  | .heightfield hs sc => Tok.n 7 :: (encList encQ hs ++ encVec2 sc)
  | .convexPolygon vs => Tok.n 9 :: encList encVec2 vs
  | .roundCuboid hx hy br => Tok.n 10 :: (encQ hx ++ encQ hy ++ encQ br)
  | .roundTriangle a b c br =>
    Tok.n 11 :: (encVec2 a ++ encVec2 b ++ encVec2 c ++ encQ br)
  | .roundConvexPolygon vs br =>
    Tok.n 12 :: (encList encVec2 vs ++ encQ br)

/-- Decode a shape by its `ShapeType` tag. -/
def decShape (ts : List Tok) : Option (Shape × List Tok) := do
  let (tag, ts1) ← decN ts
  if tag = 0 then do
    let (rr, ts2) ← decQ ts1
    return (.ball rr, ts2)
  else if tag = 1 then do
    let (hx, ts2) ← decQ ts1
    let (hy, ts3) ← decQ ts2
    return (.cuboid hx hy, ts3)
  else if tag = 2 then do
    let (hh, ts2) ← decQ ts1
    let (rr, ts3) ← decQ ts2
    return (.capsule hh rr, ts3)
  else if tag = 3 then do
    let (a, ts2) ← decVec2 ts1
    let (b, ts3) ← decVec2 ts2
    return (.segment a b, ts3)
  else if tag = 4 then do
    let (vs, ts2) ← decList decVec2 ts1
    let (is, ts3) ← decList decPair2 ts2
    return (.polyline vs is, ts3)
  else if tag = 5 then do
    let (a, ts2) ← decVec2 ts1
    let (b, ts3) ← decVec2 ts2
    let (c, ts4) ← decVec2 ts3
    return (.triangle a b c, ts4)
  else if tag = 6 then do
    let (vs, ts2) ← decList decVec2 ts1
    let (is, ts3) ← decList decPair3 ts2
    return (.trimesh vs is, ts3)
  else if tag = 7 then do
    let (hs, ts2) ← decList decQ ts1
    let (sc, ts3) ← decVec2 ts2
    return (.heightfield hs sc, ts3)
  else if tag = 9 then do
    let (vs, ts2) ← decList decVec2 ts1
    return (.convexPolygon vs, ts2)
  else if tag = 10 then do
    let (hx, ts2) ← decQ ts1
    let (hy, ts3) ← decQ ts2
    let (br, ts4) ← decQ ts3
    return (.roundCuboid hx hy br, ts4)
  else if tag = 11 then do
    let (a, ts2) ← decVec2 ts1
    let (b, ts3) ← decVec2 ts2
    let (c, ts4) ← decVec2 ts3
    let (br, ts5) ← decQ ts4
    return (.roundTriangle a b c br, ts5)
  else if tag = 12 then do
    let (vs, ts2) ← decList decVec2 ts1
    let (br, ts3) ← decQ ts2
    return (.roundConvexPolygon vs br, ts3)
  else none

/-- Decoding inverts encoding for shapes. -/
theorem decShape_encShape (s : Shape) (r : List Tok) :
    decShape (encShape s ++ r) = some (s, r) := by
  cases s <;>
    first
      | rfl
      | simp +decide only [encShape, decShape, List.cons_append,
          List.append_assoc, decN, Option.bind_eq_bind, Option.some_bind,
          ite_true, ite_false, decList_encVec2, decList_encPair2,
          decList_encPair3, decList_encQ, decVec2, decQ, encVec2, encQ,
          Option.pure_def, List.nil_append]

/-- Encode a body. -/
def encBody (b : Body) : List Tok :=
  encVec2 b.translation ++ encQ b.rotAngle ++ encVec2 b.linvel
    ++ encQ b.angvel ++ encN b.bodyType ++ encB b.sleeping
    ++ encB b.canSleep ++ encN b.sleepTimer

/-- Decode a body. -/
def decBody (ts : List Tok) : Option (Body × List Tok) := do
  let (tr, ts1) ← decVec2 ts
  let (ra, ts2) ← decQ ts1
  let (lv, ts3) ← decVec2 ts2
  let (av, ts4) ← decQ ts3
  let (bt, ts5) ← decN ts4
  let (sl, ts6) ← decB ts5
  let (cs, ts7) ← decB ts6
  let (st, ts8) ← decN ts7
  return (⟨tr, ra, lv, av, bt, sl, cs, st⟩, ts8)

/-- Decoding inverts encoding for bodies. -/
theorem decBody_encBody (b : Body) (r : List Tok) :
    decBody (encBody b ++ r) = some (b, r) := rfl

/-- Decoding inverts encoding for optional handles. -/
theorem decOptN_encOptN (o : Option Nat) (r : List Tok) :
    decOptN (encOptN o ++ r) = some (o, r) := by
  cases o <;> rfl

/-- Encode joint parameters, tagged by joint kind. -/
def encJointParams : JointParams → List Tok
  | .revoluteJ a1 a2 => Tok.n 0 :: (encVec2 a1 ++ encVec2 a2)
  | .fixedJ a1 f1 a2 f2 =>
    Tok.n 1 :: (encVec2 a1 ++ encRot f1 ++ encVec2 a2 ++ encRot f2)
  | .prismaticJ a1 a2 ax le mn mx =>
    Tok.n 2 :: (encVec2 a1 ++ encVec2 a2 ++ encVec2 ax ++ encB le
      ++ encQ mn ++ encQ mx)

/-- Decode joint parameters. -/
def decJointParams (ts : List Tok) : Option (JointParams × List Tok) := do
  let (tag, ts1) ← decN ts
  if tag = 0 then do
    let (a1, ts2) ← decVec2 ts1
    let (a2, ts3) ← decVec2 ts2
    return (.revoluteJ a1 a2, ts3)
  else if tag = 1 then do
    let (a1, ts2) ← decVec2 ts1
    let (f1, ts3) ← decRot ts2
    let (a2, ts4) ← decVec2 ts3
    let (f2, ts5) ← decRot ts4
    return (.fixedJ a1 f1 a2 f2, ts5)
  else if tag = 2 then do
    let (a1, ts2) ← decVec2 ts1
    let (a2, ts3) ← decVec2 ts2
    let (ax, ts4) ← decVec2 ts3
    let (le, ts5) ← decB ts4
    let (mn, ts6) ← decQ ts5
    let (mx, ts7) ← decQ ts6
    return (.prismaticJ a1 a2 ax le mn mx, ts7)
  else none

/-- Decoding inverts encoding for joint parameters. -/
theorem decJointParams_encJointParams (jp : JointParams) (r : List Tok) :
    decJointParams (encJointParams jp ++ r) = some (jp, r) := by
  cases jp <;> rfl

/-- Encode a stored joint. -/
def encJointEnt (j : JointEnt) : List Tok :=
  encN j.body1 ++ encN j.body2 ++ encJointParams j.params

/-- Decode a stored joint. -/
def decJointEnt (ts : List Tok) : Option (JointEnt × List Tok) := do
  let (b1, ts1) ← decN ts
  let (b2, ts2) ← decN ts1
  let (jp, ts3) ← decJointParams ts2
  return (⟨b1, b2, jp⟩, ts3)

/-- Decoding inverts encoding for stored joints. -/
theorem decJointEnt_encJointEnt (j : JointEnt) (r : List Tok) :
    decJointEnt (encJointEnt j ++ r) = some (j, r) := by
  simp only [encJointEnt, decJointEnt, List.cons_append, List.append_assoc,
    encN, decN, Option.bind_eq_bind, Option.some_bind,
    decJointParams_encJointParams, Option.pure_def, List.nil_append]

/-- Encode a collider. -/
def encCollider (c : Collider) : List Tok :=
  encShape c.shape ++ encVec2 c.translation ++ encRot c.rotation
    ++ encOptN c.parent ++ encQ c.friction ++ encQ c.restitution
    ++ encB c.isSensor

/-- Decode a collider. -/
def decCollider (ts : List Tok) : Option (Collider × List Tok) := do
  let (sh, ts1) ← decShape ts
  let (tr, ts2) ← decVec2 ts1
  let (ro, ts3) ← decRot ts2
  let (pa, ts4) ← decOptN ts3
  let (fr, ts5) ← decQ ts4
  let (re, ts6) ← decQ ts5
  let (se, ts7) ← decB ts6
  return (⟨sh, tr, ro, pa, fr, re, se⟩, ts7)

/-- Decoding inverts encoding for colliders. -/
theorem decCollider_encCollider (c : Collider) (r : List Tok) :
    decCollider (encCollider c ++ r) = some (c, r) := by
  simp only [encCollider, decCollider, List.cons_append, List.append_assoc,
    decShape_encShape, Option.bind_eq_bind, Option.some_bind, encVec2,
    decVec2, encRot, decRot, decOptN_encOptN, encQ, decQ, encB, decB,
    Option.pure_def, List.nil_append]

/-- Encode the integration parameters. -/
def encIP (p : IntegrationParameters) : List Tok :=
  encQ p.dt ++ encQ p.erp ++ encQ p.allowedLinearError
    ++ encQ p.predictionDistance ++ encN p.numSolverIterations
    ++ encN p.minIslandSize ++ encN p.maxCcdSubsteps

/-- Decode the integration parameters. -/
def decIP (ts : List Tok) : Option (IntegrationParameters × List Tok) := do
  let (dt, ts1) ← decQ ts
  let (erp, ts2) ← decQ ts1
  let (ale, ts3) ← decQ ts2
  let (pd, ts4) ← decQ ts3
  let (it, ts5) ← decN ts4
  let (mis, ts6) ← decN ts5
  let (ccd, ts7) ← decN ts6
  return (⟨dt, erp, ale, pd, it, mis, ccd⟩, ts7)

/-- Decoding inverts encoding for the integration parameters. -/
theorem decIP_encIP (p : IntegrationParameters) (r : List Tok) :
    decIP (encIP p ++ r) = some (p, r) := rfl

/-- Encode a handle/body entry. -/
def encHB (p : Nat × Body) : List Tok := encN p.1 ++ encBody p.2

/-- Decode a handle/body entry. -/
def decHB (ts : List Tok) : Option ((Nat × Body) × List Tok) := do
  let (h, ts1) ← decN ts
  let (b, ts2) ← decBody ts1
  return ((h, b), ts2)

/-- Encode a handle/collider entry. -/
def encHC (p : Nat × Collider) : List Tok := encN p.1 ++ encCollider p.2

/-- Decode a handle/collider entry. -/
def decHC (ts : List Tok) : Option ((Nat × Collider) × List Tok) := do
  let (h, ts1) ← decN ts
  let (c, ts2) ← decCollider ts1
  return ((h, c), ts2)

/-- Decoding inverts encoding for handle/collider entries. -/
theorem decHC_encHC (p : Nat × Collider) (r : List Tok) :
    decHC (encHC p ++ r) = some (p, r) := by
  simp only [encHC, decHC, List.cons_append, List.append_assoc, encN, decN,
    Option.bind_eq_bind, Option.some_bind, decCollider_encCollider,
    Option.pure_def, List.nil_append]

/-- Encode a handle/joint entry. -/
def encHJ (p : Nat × JointEnt) : List Tok := encN p.1 ++ encJointEnt p.2

/-- Decode a handle/joint entry. -/
def decHJ (ts : List Tok) : Option ((Nat × JointEnt) × List Tok) := do
  let (h, ts1) ← decN ts
  let (j, ts2) ← decJointEnt ts1
  return ((h, j), ts2)

/-- Decoding inverts encoding for handle/joint entries. -/
theorem decHJ_encHJ (p : Nat × JointEnt) (r : List Tok) :
    decHJ (encHJ p ++ r) = some (p, r) := by
  simp only [encHJ, decHJ, List.cons_append, List.append_assoc, encN, decN,
    Option.bind_eq_bind, Option.some_bind, decJointEnt_encJointEnt,
    Option.pure_def, List.nil_append]

/-- Specialized list hook: handle/body entries. -/
theorem decList_encHB (xs : List (Nat × Body)) (r : List Tok) :
    decList decHB (encList encHB xs ++ r) = some (xs, r) :=
  decList_encodes decHB encHB (fun a r => rfl) xs r

/-- Specialized list hook: handle/collider entries. -/
theorem decList_encHC (xs : List (Nat × Collider)) (r : List Tok) :
    decList decHC (encList encHC xs ++ r) = some (xs, r) :=
  decList_encodes decHC encHC decHC_encHC xs r

/-- Specialized list hook: handle/joint entries. -/
theorem decList_encHJ (xs : List (Nat × JointEnt)) (r : List Tok) :
    decList decHJ (encList encHJ xs ++ r) = some (xs, r) :=
  decList_encodes decHJ encHJ decHJ_encHJ xs r

/-- Encode a whole world: gravity, integration parameters, then the
four entity sets. -/
def encWorld (w : World) : List Tok :=
  encVec2 w.gravity ++ encIP w.params ++ encList encHB w.bodies
    ++ encList encHC w.colliders ++ encList encHJ w.impulseJoints
    ++ encList encHJ w.multibodyJoints

/-- Decode a whole world. -/
def decWorld (ts : List Tok) : Option (World × List Tok) := do
  let (g, ts1) ← decVec2 ts
  let (p, ts2) ← decIP ts1
  let (bs, ts3) ← decList decHB ts2
  let (cs, ts4) ← decList decHC ts3
  let (ijs, ts5) ← decList decHJ ts4
  let (mjs, ts6) ← decList decHJ ts5
  return (⟨g, p, bs, cs, ijs, mjs⟩, ts6)

/-- Decoding inverts encoding for worlds. -/
theorem decWorld_encWorld (w : World) (r : List Tok) :
    decWorld (encWorld w ++ r) = some (w, r) := by
  simp only [encWorld, decWorld, List.cons_append, List.append_assoc,
    encVec2, decVec2, decIP_encIP, Option.bind_eq_bind, Option.some_bind,
    decList_encHB, decList_encHC, decList_encHJ, Option.pure_def, List.nil_append]

/-- Modelled from the spec: `RawSerializationPipeline.serializeAll` of
`src/rapier_wasm2d.d.ts` (WASM body not in `src/`).  Serializes gravity,
the integration parameters and the four entity sets — the complete
state of spec §6's snapshot surface — into one token blob (the binding
returns the bytes as `Uint8Array | undefined`; the token list models
the byte blob). -/
def RawSerializationPipeline.serializeAll (w : World) : Option (List Tok) :=
  some (encWorld w)

/-- Modelled from the spec: `RawSerializationPipeline.deserializeAll` of
`src/rapier_wasm2d.d.ts` (WASM body not in `src/`).  Decodes a blob back
into a complete world (`RawDeserializedWorld` exposes exactly the
components encoded by `serializeAll`); a malformed or trailing-garbage
blob yields `none` (`undefined`). -/
def RawSerializationPipeline.deserializeAll (data : List Tok) :
    Option World :=
  match decWorld data with
  | some (w, []) => some w
  | _ => none

/-- The joint-kind tag of stored joint parameters. -/
def JointParams.kindTag : JointParams → Nat
  | .revoluteJ _ _ => 0
  | .fixedJ _ _ _ _ => 1
  | .prismaticJ _ _ _ _ _ _ => 2

/-- Whether a world contains at least one collider of every shape
variant and at least one joint of every constructible joint kind. -/
def World.containsAllVariants (w : World) : Bool :=
  ([0, 1, 2, 3, 4, 5, 6, 7, 9, 10, 11, 12].all
      (fun t => (w.colliders.map (fun c => c.2.shape.typeTag)).contains t))
    && ([0, 1, 2].all (fun t =>
      ((w.impulseJoints ++ w.multibodyJoints).map
        (fun j => j.2.params.kindTag)).contains t))

/-- C6: for a world containing at least one of each shape variant and
each joint kind, `deserializeAll (serializeAll world)` succeeds and
reproduces an equivalent world: equal body, collider and joint counts,
and every handle-addressable field value (the decoded world is equal to
the original, so poses, velocities, materials, joint parameters,
integration parameters and gravity all agree). -/
theorem serializeAll_deserializeAll_roundtrip (w : World)
    (hw : World.containsAllVariants w = true) :
    ∃ blob, RawSerializationPipeline.serializeAll w = some blob
      ∧ RawSerializationPipeline.deserializeAll blob = some w
      ∧ ∀ w', RawSerializationPipeline.deserializeAll blob = some w' →
          w'.bodies.length = w.bodies.length
          ∧ w'.colliders.length = w.colliders.length
          ∧ w'.impulseJoints.length = w.impulseJoints.length
          ∧ w'.multibodyJoints.length = w.multibodyJoints.length
          ∧ w' = w := by
  have hdec : RawSerializationPipeline.deserializeAll (encWorld w)
      = some w := by
    have h := decWorld_encWorld w []
    rw [List.append_nil] at h
    unfold RawSerializationPipeline.deserializeAll
    rw [h]
  refine ⟨encWorld w, rfl, hdec, ?_⟩
  intro w' hw'
  rw [hdec] at hw'
  cases hw'
  exact ⟨rfl, rfl, rfl, rfl, rfl⟩

/-- A world holding one collider of every shape variant, one body, and
one joint of every constructible kind (revolute and fixed impulse
joints, a prismatic multibody joint). -/
def allVariantsWorld : World :=
  ⟨⟨0, -10⟩, ⟨1, 1, 0, 0, 4, 128, 1⟩,
    [(1, ⟨⟨0, 0⟩, 0, Vec2.zero, 0, 0, false, true, 0⟩)],
    [(0, ⟨Shape.ball 1, ⟨0, 0⟩, Rot.identity, some 1, 1, 0, false⟩),
     (1, ⟨Shape.cuboid 1 2, ⟨1, 0⟩, Rot.identity, some 1, 1, 0, false⟩),
     (2, ⟨Shape.capsule 1 1, ⟨2, 0⟩, Rot.identity, none, 1, 0, false⟩),
     (3, ⟨Shape.segment ⟨0, 0⟩ ⟨1, 1⟩, ⟨3, 0⟩, Rot.identity, none, 1, 0,
       false⟩),
     (4, ⟨Shape.polyline [⟨0, 0⟩, ⟨1, 0⟩, ⟨1, 1⟩] [(0, 1), (1, 2)], ⟨4, 0⟩,
       Rot.identity, none, 1, 0, false⟩),
     (5, ⟨Shape.triangle ⟨0, 0⟩ ⟨1, 0⟩ ⟨0, 1⟩, ⟨5, 0⟩, Rot.identity, none,
       1, 0, false⟩),
     (6, ⟨Shape.trimesh [⟨0, 0⟩, ⟨1, 0⟩, ⟨0, 1⟩] [(0, 1, 2)], ⟨6, 0⟩,
       Rot.identity, none, 1, 0, false⟩),
     (7, ⟨Shape.heightfield [0, 1, 0] ⟨4, 1⟩, ⟨7, 0⟩, Rot.identity, none,
       1, 0, false⟩),
     (8, ⟨Shape.convexPolygon [⟨0, 0⟩, ⟨2, 0⟩, ⟨2, 2⟩, ⟨0, 2⟩], ⟨8, 0⟩,
       Rot.identity, none, 1, 0, false⟩),
     (9, ⟨Shape.roundCuboid 1 1 1, ⟨9, 0⟩, Rot.identity, none, 1, 0,
       false⟩),
     (10, ⟨Shape.roundTriangle ⟨0, 0⟩ ⟨1, 0⟩ ⟨0, 1⟩ 1, ⟨10, 0⟩,
       Rot.identity, none, 1, 0, false⟩),
     (11, ⟨Shape.roundConvexPolygon [⟨0, 0⟩, ⟨2, 0⟩, ⟨1, 2⟩] 1, ⟨11, 0⟩,
       Rot.identity, none, 1, 0, true⟩)],
    [(0, ⟨1, 1, JointParams.revoluteJ ⟨0, 0⟩ ⟨1, 0⟩⟩),
     (1, ⟨1, 1, JointParams.fixedJ ⟨0, 0⟩ Rot.identity ⟨1, 0⟩
       Rot.identity⟩)],
    [(2, ⟨1, 1, JointParams.prismaticJ ⟨0, 0⟩ ⟨1, 0⟩ ⟨1, 0⟩ true (-1) 1⟩)]⟩

/-- C6 witness: the round-trip theorem applied to `allVariantsWorld`,
which contains every shape variant and every joint kind. -/
theorem serializeAll_deserializeAll_roundtrip_witness :
    ∃ blob,
      RawSerializationPipeline.serializeAll allVariantsWorld = some blob
      ∧ RawSerializationPipeline.deserializeAll blob = some allVariantsWorld
      ∧ ∀ w', RawSerializationPipeline.deserializeAll blob = some w' →
          w'.bodies.length = allVariantsWorld.bodies.length
          ∧ w'.colliders.length = allVariantsWorld.colliders.length
          ∧ w'.impulseJoints.length = allVariantsWorld.impulseJoints.length
          ∧ w'.multibodyJoints.length
              = allVariantsWorld.multibodyJoints.length
          ∧ w' = allVariantsWorld :=
  serializeAll_deserializeAll_roundtrip allVariantsWorld (by decide)

/-- A 2D vector over `ℝ`, used for the contact-force quantities whose
Euclidean magnitude is genuinely irrational. -/
structure RVec2 where
  x : ℝ
  y : ℝ

/-- Addition of real vectors. -/
def RVec2.add (a b : RVec2) : RVec2 := ⟨a.x + b.x, a.y + b.y⟩

/-- The zero real vector. -/
def RVec2.zero : RVec2 := ⟨0, 0⟩

/-- The Euclidean magnitude of a real vector. -/
noncomputable def RVec2.norm (v : RVec2) : ℝ :=
  Real.sqrt (v.x * v.x + v.y * v.y)

/-- A contact force event, mirroring `RawContactForceEvent` of
`src/rapier_wasm2d.d.ts`: the two collider handles and the individual
contact forces of the pair accumulated during the step. -/
structure RawContactForceEvent where
  collider1 : Nat
  collider2 : Nat
  forces : List RVec2

/-- Modelled from the spec: `RawContactForceEvent.total_force` (WASM
body not in `src/`; its declared doc comment says it is the sum of all
the forces between the two colliders). -/
def RawContactForceEvent.total_force (e : RawContactForceEvent) : RVec2 :=
  e.forces.foldr RVec2.add RVec2.zero

/-- Modelled from the spec: `RawContactForceEvent.total_force_magnitude`
(WASM body not in `src/`; its declared doc comment says it is the sum of
the magnitudes of each force — explicitly not the magnitude of
`total_force`). -/
noncomputable def RawContactForceEvent.total_force_magnitude
    (e : RawContactForceEvent) : ℝ :=
  (e.forces.map RVec2.norm).sum

/-- The magnitude of a real vector is the complex absolute value of the
corresponding complex number. -/
theorem RVec2.norm_eq_complexAbs (v : RVec2) :
    v.norm = Complex.abs ⟨v.x, v.y⟩ := by
  unfold RVec2.norm
  rw [Complex.abs_apply, Complex.normSq_mk]

/-- Triangle inequality for the magnitude of real vectors. -/
theorem RVec2.norm_add_le (a b : RVec2) :
    (a.add b).norm ≤ a.norm + b.norm := by
  rw [RVec2.norm_eq_complexAbs, RVec2.norm_eq_complexAbs,
    RVec2.norm_eq_complexAbs]
  have hsum : (⟨a.x, a.y⟩ + ⟨b.x, b.y⟩ : ℂ)
      = (⟨(a.add b).x, (a.add b).y⟩ : ℂ) := by
    apply Complex.ext <;> simp [RVec2.add]
  calc Complex.abs ⟨(a.add b).x, (a.add b).y⟩
      = Complex.abs (⟨a.x, a.y⟩ + ⟨b.x, b.y⟩) := by rw [hsum]
    _ ≤ Complex.abs ⟨a.x, a.y⟩ + Complex.abs ⟨b.x, b.y⟩ :=
      Complex.abs.add_le _ _

/-- The magnitude of a vector sum of a list is at most the sum of the
magnitudes. -/
theorem norm_foldr_add_le (l : List RVec2) :
    (l.foldr RVec2.add RVec2.zero).norm ≤ (l.map RVec2.norm).sum := by
  induction l with
  | nil =>
    simp only [List.foldr_nil, List.map_nil, List.sum_nil]
    unfold RVec2.norm RVec2.zero
    simp
  | cons a l ih =>
    simp only [List.foldr_cons, List.map_cons, List.sum_cons]
    calc (RVec2.add a (l.foldr RVec2.add RVec2.zero)).norm
        ≤ a.norm + (l.foldr RVec2.add RVec2.zero).norm :=
          RVec2.norm_add_le a _
      _ ≤ a.norm + (l.map RVec2.norm).sum := by linarith

/-- C10: for every contact force event, `total_force_magnitude` — the
sum of the magnitudes of the individual contact forces — is at least
the Euclidean magnitude of the vector returned by `total_force`, by the
triangle inequality. -/
theorem total_force_magnitude_dominates (e : RawContactForceEvent) :
    RVec2.norm (RawContactForceEvent.total_force e)
      ≤ RawContactForceEvent.total_force_magnitude e :=
  norm_foldr_add_le e.forces
